import Mathlib

/-!
Verification of the stream-relay behavior of `ysbot.py`: a desktop chat widget
that forwards a prompt to a streaming conversation client and relays the
streamed fragments back onto the presentation (GUI) thread.

The embedding models:
* the chat display textbox (content string plus its editable/"state" flag;
  an insert on a disabled Tk textbox is a no-op, which is why the source
  wraps every mutation in `configure(state="normal") … configure(state="disabled")`);
* the whole window state (`UIState`): display, entry text, enabled flags, focus;
* the callbacks scheduled with `self.after(0, …)` as a FIFO list of `UIAction`s,
  executed in order on the presentation thread by `runActions`;
* the worker `get_bot_response` as a function from the client's outcome
  (a successful chunk stream, a mid-stream failure, or a failure of
  `chat.send_message` itself) to the list of actions it schedules, in order.
-/

/-- A chunk of the streamed response.  `some t` models a chunk exposing a
`text` attribute with payload `t`; `none` models a chunk without one
(the source guards with `hasattr(chunk, 'text')`). -/
abbrev Chunk := Option String

/-- The `chat_display` textbox: its textual content and whether its Tk state
is `"normal"` (editable) or `"disabled"`. -/
structure ChatDisplay where
  content : String
  editable : Bool
deriving Repr, DecidableEq

/-- The observable state of the widget: the display, the entry field's text,
the enabled flags of the entry and the send button, and input focus. -/
structure UIState where
  chat_display : ChatDisplay
  user_input_text : String
  user_input_enabled : Bool
  send_button_enabled : Bool
  input_focused : Bool
deriving Repr, DecidableEq

/-- Primitive commands issued to the `chat_display` textbox, in source order. -/
inductive WidgetCmd
  | configureState : Bool → WidgetCmd
  | insertTagged : String → String → WidgetCmd
  | insert : String → WidgetCmd
  | seeEnd
deriving Repr, DecidableEq

/-- Tk semantics of one textbox command: inserting while the widget is
disabled is ignored; `see("end")` only scrolls. -/
def applyCmd (d : ChatDisplay) : WidgetCmd → ChatDisplay
  | .configureState b => { d with editable := b }
  | .insertTagged s _tag => if d.editable then { d with content := d.content ++ s } else d
  | .insert s => if d.editable then { d with content := d.content ++ s } else d
  | .seeEnd => d

def applyCmds (d : ChatDisplay) (cs : List WidgetCmd) : ChatDisplay :=
  cs.foldl applyCmd d

/-- The textbox commands issued by `YSBot.add_to_chat(sender, message)`:
enable, optionally insert the tagged `"{sender}:\n"` header (Python truthiness:
only when `sender` is non-empty), insert `"{message}\n\n"`, disable, scroll. -/
def add_to_chat_cmds (sender message : String) : List WidgetCmd :=
  [WidgetCmd.configureState true]
    ++ (if sender ≠ "" then
          [WidgetCmd.insertTagged (sender ++ ":\n")
            ("tag_" ++ sender.replace " " "_")]
        else [])
    ++ [WidgetCmd.insert (message ++ "\n\n"), WidgetCmd.configureState false,
        WidgetCmd.seeEnd]

/-- `YSBot.add_to_chat`: mutate the display, leaving all other widget state alone. -/
def add_to_chat (st : UIState) (sender message : String) : UIState :=
  { st with chat_display := applyCmds st.chat_display (add_to_chat_cmds sender message) }

/-- The textbox commands issued by `YSBot.update_chat_stream(text)`. -/
def update_chat_stream_cmds (text : String) : List WidgetCmd :=
  [WidgetCmd.configureState true, WidgetCmd.insert text,
   WidgetCmd.configureState false, WidgetCmd.seeEnd]

/-- `YSBot.update_chat_stream`: append one streamed fragment to the display. -/
def update_chat_stream (st : UIState) (text : String) : UIState :=
  { st with chat_display := applyCmds st.chat_display (update_chat_stream_cmds text) }

/-- `YSBot.enable_input`: re-enable the entry and the send button and focus the entry. -/
def enable_input (st : UIState) : UIState :=
  { st with user_input_enabled := true, send_button_enabled := true, input_focused := true }

/-- A callback scheduled onto the presentation thread with `self.after(0, …)`. -/
inductive UIAction
  | addToChat : String → String → UIAction
  | updateStream : String → UIAction
  | enableInput
deriving Repr, DecidableEq

/-- Executing one scheduled callback on the presentation thread. -/
def runAction (st : UIState) : UIAction → UIState
  | .addToChat sender message => add_to_chat st sender message
  | .updateStream t => update_chat_stream st t
  | .enableInput => enable_input st

/-- Executing a FIFO list of scheduled callbacks, in order. -/
def runActions (st : UIState) (as : List UIAction) : UIState :=
  as.foldl runAction st

/-- The behavior of the conversation client on one request:
either `chat.send_message` returns a stream that yields `chunks` and
terminates normally, or iteration fails with error description `desc`
after yielding `produced`, or `chat.send_message` itself throws (so no
chunk and no bot header are ever produced). -/
inductive ClientOutcome
  | success : List Chunk → ClientOutcome
  | midFailure : List Chunk → String → ClientOutcome
  | setupFailure : String → ClientOutcome
deriving Repr, DecidableEq

/-- The stream loop body: each chunk with a `text` attribute schedules an
`update_chat_stream` append; chunks without one are skipped. -/
def streamActions (chunks : List Chunk) : List UIAction :=
  chunks.filterMap (fun c => Option.map UIAction.updateStream c)

/-- The `full_response` accumulator of `get_bot_response`: concatenation of
the text of every chunk exposing a `text` attribute. -/
def full_response (chunks : List Chunk) : String :=
  chunks.foldl (fun acc c => match c with | some t => acc ++ t | none => acc) ""

/-- The text of the error message appended when the client fails
(`f"Sorry, an error occurred: {e}"`). -/
def error_message (desc : String) : String :=
  "Sorry, an error occurred: " ++ desc

/-- `YSBot.get_bot_response`, abstracted over the client's outcome: the list
of callbacks it schedules with `self.after(0, …)`, in scheduling order.
On success: the `"YS Bot"` header, one fragment append per text chunk, then
`enable_input`.  On a mid-stream failure the `except` block appends one
`"Error"` message after the fragments already relayed; on a setup failure
(`chat.send_message` threw) only the `"Error"` message is scheduled.  The
final `enable_input` is outside the `try`, hence scheduled in every case. -/
def get_bot_response (outcome : ClientOutcome) : List UIAction :=
  match outcome with
  | .success chunks =>
      UIAction.addToChat "YS Bot" "" :: (streamActions chunks ++ [UIAction.enableInput])
  | .midFailure produced desc =>
      UIAction.addToChat "YS Bot" "" ::
        (streamActions produced ++
          [UIAction.addToChat "Error" (error_message desc), UIAction.enableInput])
  | .setupFailure desc =>
      [UIAction.addToChat "Error" (error_message desc), UIAction.enableInput]

/-- Python's `str.strip()`: remove leading and trailing whitespace. -/
def strip (s : String) : String :=
  ⟨((s.data.dropWhile Char.isWhitespace).reverse.dropWhile Char.isWhitespace).reverse⟩

/-- Result of the `send_message_event` handler: the widget state when the
handler returns, and `some prompt` iff a background worker thread was
started with that prompt. -/
structure SubmitResult where
  state : UIState
  worker : Option String
deriving Repr, DecidableEq

/-- `YSBot.send_message_event`: trim the entry's text; if empty, return with
no state change.  Otherwise append the `"You"` message, clear the entry,
disable the entry and the send button, and start the worker thread. -/
def send_message_event (st : UIState) : SubmitResult :=
  let prompt := strip st.user_input_text
  if prompt = "" then ⟨st, none⟩
  else
    let st1 := add_to_chat st "You" prompt
    let st2 := { st1 with user_input_text := "" }
    let st3 := { st2 with user_input_enabled := false, send_button_enabled := false }
    ⟨st3, some prompt⟩

/-- Modelled from the spec: the GUI toolkit delivers a send event (Return key
or button press) only while the input surface is enabled; with both the entry
and the send button disabled the handler is never invoked, so the attempt is
a no-op.  This toolkit gating is the spec's disable/enable gate; it is not
itself code of the repository. -/
def try_submit (st : UIState) : SubmitResult :=
  if st.user_input_enabled || st.send_button_enabled then send_message_event st
  else ⟨st, none⟩

/-- The log appends of one full cycle from state `st`, in the order they hit
the presentation thread: the synchronous `"You"` append from the handler,
then the worker's scheduled callbacks (none at all if the submission was
rejected as empty). -/
def cycleAppends (st : UIState) (outcome : ClientOutcome) : List UIAction :=
  match (send_message_event st).worker with
  | none => []
  | some prompt => UIAction.addToChat "You" prompt :: get_bot_response outcome

/-- Is this scheduled append a user ("You") message? -/
def isUserMsg : UIAction → Bool
  | .addToChat "You" _ => true
  | _ => false

/-- Is this scheduled append the bot ("YS Bot") header message? -/
def isBotHeader : UIAction → Bool
  | .addToChat "YS Bot" _ => true
  | _ => false

/-- Is this scheduled append an "Error" message? -/
def isErrorMsg : UIAction → Bool
  | .addToChat "Error" _ => true
  | _ => false

/-- The actions `get_bot_response` schedules strictly before the final
`enable_input`, for each outcome of the client. -/
def pre_enable_actions : ClientOutcome → List UIAction
  | .success chunks => UIAction.addToChat "YS Bot" "" :: streamActions chunks
  | .midFailure produced desc =>
      UIAction.addToChat "YS Bot" "" ::
        (streamActions produced ++ [UIAction.addToChat "Error" (error_message desc)])
  | .setupFailure desc => [UIAction.addToChat "Error" (error_message desc)]

/-! ### Helper lemmas -/

theorem runActions_append (st : UIState) (l1 l2 : List UIAction) :
    runActions st (l1 ++ l2) = runActions (runActions st l1) l2 := by
  simp [runActions, List.foldl_append]

theorem add_to_chat_eq (st : UIState) (sender message : String) (h : sender ≠ "") :
    add_to_chat st sender message =
      { st with chat_display :=
          { content := st.chat_display.content ++ (sender ++ ":\n") ++ (message ++ "\n\n"),
            editable := false } } := by
  simp [add_to_chat, add_to_chat_cmds, applyCmds, applyCmd, h]

theorem update_chat_stream_eq (st : UIState) (text : String) :
    update_chat_stream st text =
      { st with chat_display :=
          { content := st.chat_display.content ++ text, editable := false } } := by
  simp [update_chat_stream, update_chat_stream_cmds, applyCmds, applyCmd]

theorem get_bot_response_decomp (o : ClientOutcome) :
    get_bot_response o = pre_enable_actions o ++ [UIAction.enableInput] := by
  cases o <;> simp [get_bot_response, pre_enable_actions]

theorem mem_streamActions (a : UIAction) (chunks : List Chunk)
    (ha : a ∈ streamActions chunks) : ∃ t, a = UIAction.updateStream t := by
  simp only [streamActions, List.mem_filterMap] at ha
  obtain ⟨c, _, hc⟩ := ha
  cases c with
  | none => simp at hc
  | some t => exact ⟨t, by simpa using hc.symm⟩

theorem pre_enable_ne_enableInput (o : ClientOutcome) :
    ∀ a ∈ pre_enable_actions o, a ≠ UIAction.enableInput := by
  intro a ha
  cases o with
  | success chunks =>
      simp only [pre_enable_actions, List.mem_cons] at ha
      rcases ha with h | h
      · simp [h]
      · obtain ⟨t, ht⟩ := mem_streamActions a chunks h
        simp [ht]
  | midFailure produced desc =>
      simp only [pre_enable_actions, List.mem_cons, List.mem_append,
        List.mem_singleton] at ha
      rcases ha with h | h | h
      · simp [h]
      · obtain ⟨t, ht⟩ := mem_streamActions a produced h
        simp [ht]
      · rcases h with h | h
        · simp [h]
        · simp at h
  | setupFailure desc =>
      simp only [pre_enable_actions, List.mem_singleton] at ha
      simp [ha]

theorem streamActions_countP_eq_zero (p : UIAction → Bool)
    (hp : ∀ t, p (UIAction.updateStream t) = false) (chunks : List Chunk) :
    (streamActions chunks).countP p = 0 := by
  rw [List.countP_eq_zero]
  intro a ha
  obtain ⟨t, ht⟩ := mem_streamActions a chunks ha
  simp [ht, hp]

theorem get_bot_response_countP_isUserMsg (outcome : ClientOutcome) :
    (get_bot_response outcome).countP isUserMsg = 0 := by
  cases outcome <;>
    simp [get_bot_response, List.countP_cons, List.countP_append,
      streamActions_countP_eq_zero isUserMsg (fun t => rfl), isUserMsg]

theorem runAction_preserves_disabled (st : UIState) (a : UIAction)
    (ha : a ≠ UIAction.enableInput)
    (h1 : st.user_input_enabled = false) (h2 : st.send_button_enabled = false) :
    (runAction st a).user_input_enabled = false ∧
    (runAction st a).send_button_enabled = false := by
  cases a with
  | addToChat s m => simpa [runAction, add_to_chat] using ⟨h1, h2⟩
  | updateStream t => simpa [runAction, update_chat_stream] using ⟨h1, h2⟩
  | enableInput => exact absurd rfl ha

theorem runActions_preserves_disabled (as : List UIAction)
    (has : ∀ a ∈ as, a ≠ UIAction.enableInput) :
    ∀ st : UIState, st.user_input_enabled = false → st.send_button_enabled = false →
      (runActions st as).user_input_enabled = false ∧
      (runActions st as).send_button_enabled = false := by
  induction as with
  | nil => intro st h1 h2; exact ⟨h1, h2⟩
  | cons a rest ih =>
      intro st h1 h2
      have ha := has a (by simp)
      have h' := runAction_preserves_disabled st a ha h1 h2
      have hrest := ih (fun b hb => has b (by simp [hb])) (runAction st a) h'.1 h'.2
      simpa [runActions] using hrest

/-- A concrete widget state with a non-empty (after trimming) prompt in the
entry field, as left by `create_widgets` after the welcome message. -/
def stW : UIState :=
  { chat_display :=
      { content := "YS Bot:\nHi! I'm YS Bot. How can I assist you?\n\n",
        editable := false },
    user_input_text := " hi ", user_input_enabled := true,
    send_button_enabled := true, input_focused := true }

/-- A concrete widget state whose entry field holds whitespace only. -/
def stE : UIState :=
  { chat_display := { content := "", editable := false },
    user_input_text := "   ", user_input_enabled := true,
    send_button_enabled := true, input_focused := true }

/-! ### Claim theorems -/

/-- Claim C1: when the client yields the fragments `["Hel","lo"]` and then
completes normally, the worker schedules (in FIFO order onto the presentation
thread) the bot header, the append of `"Hel"`, the append of `"lo"`, and the
re-enable — so the appends execute in fragment order — the accumulated
response is `"Hello"`, and running the cycle's callbacks appends exactly
`"Hel"` then `"lo"` after the bot header in the display. -/
theorem c1_stream_hello_order_and_text (st : UIState) :
    get_bot_response (ClientOutcome.success [some "Hel", some "lo"]) =
      [UIAction.addToChat "YS Bot" "", UIAction.updateStream "Hel",
       UIAction.updateStream "lo", UIAction.enableInput] ∧
    full_response [some "Hel", some "lo"] = "Hello" ∧
    (runActions st
        (get_bot_response (ClientOutcome.success [some "Hel", some "lo"]))).chat_display.content
      = st.chat_display.content ++ "YS Bot:\n" ++ "\n\n" ++ "Hel" ++ "lo" :=
  ⟨rfl, rfl, rfl⟩

/-- Claim C2: for every outcome of the client — normal completion, mid-stream
failure, or failure before the first fragment — the worker's scheduled
callback list is non-empty, its last element is the re-enable of the input
surface, and the re-enable occurs exactly once in it. -/
theorem c2_enable_input_scheduled_once_and_last (outcome : ClientOutcome) :
    get_bot_response outcome ≠ [] ∧
    (get_bot_response outcome).getLast? = some UIAction.enableInput ∧
    (get_bot_response outcome).count UIAction.enableInput = 1 := by
  rw [get_bot_response_decomp]
  refine ⟨by simp, by simp, ?_⟩
  rw [List.count_append]
  have h0 : (pre_enable_actions outcome).count UIAction.enableInput = 0 := by
    rw [List.count_eq_zero]
    intro hmem
    exact pre_enable_ne_enableInput outcome _ hmem rfl
  simp [h0]

/-- Claim C3: when the client fails, exactly one "Error" message whose text
is `"Sorry, an error occurred: "` followed by the failure's description is
scheduled (text `"Sorry, an error occurred: timeout"` for description
`"timeout"`); when the failure precedes the first scheduled append
(`chat.send_message` threw), no bot header is scheduled at all; and when the
failure happens mid-stream, the resulting display content is exactly the
content the already-relayed fragments produced, with the error message
appended after it — no rollback. -/
theorem c3_error_append_no_rollback (st : UIState) (produced : List Chunk) (desc : String) :
    get_bot_response (ClientOutcome.setupFailure desc) =
      [UIAction.addToChat "Error" (error_message desc), UIAction.enableInput] ∧
    error_message "timeout" = "Sorry, an error occurred: timeout" ∧
    (get_bot_response (ClientOutcome.midFailure produced desc)).countP isErrorMsg = 1 ∧
    (get_bot_response (ClientOutcome.setupFailure desc)).countP isErrorMsg = 1 ∧
    (get_bot_response (ClientOutcome.setupFailure desc)).countP isBotHeader = 0 ∧
    (runActions st
        (get_bot_response (ClientOutcome.midFailure produced desc))).chat_display.content
      = (runActions st
            (get_bot_response (ClientOutcome.success produced))).chat_display.content
          ++ "Error:\n" ++ (error_message desc ++ "\n\n") := by
  refine ⟨rfl, rfl, ?_, ?_, ?_, ?_⟩
  · simp [get_bot_response, List.countP_cons, List.countP_append,
      streamActions_countP_eq_zero isErrorMsg (fun t => rfl), isErrorMsg]
  · simp [get_bot_response, List.countP_cons, isErrorMsg]
  · simp [get_bot_response, List.countP_cons, isBotHeader]
  · have hm : get_bot_response (ClientOutcome.midFailure produced desc)
        = (UIAction.addToChat "YS Bot" "" :: streamActions produced)
          ++ [UIAction.addToChat "Error" (error_message desc), UIAction.enableInput] := by
      simp [get_bot_response]
    have hs : get_bot_response (ClientOutcome.success produced)
        = (UIAction.addToChat "YS Bot" "" :: streamActions produced)
          ++ [UIAction.enableInput] := by
      simp [get_bot_response]
    rw [hm, hs, runActions_append, runActions_append]
    generalize runActions st (UIAction.addToChat "YS Bot" "" :: streamActions produced) = P
    have herr := add_to_chat_eq P "Error" (error_message desc) (by decide)
    simp [runActions, runAction, enable_input, herr]

/-- Claim C4: for every prompt that is non-empty after trimming, the accepted
cycle's appends are exactly one user ("You") message carrying the trimmed
prompt followed by the worker's scheduled callbacks, so the user message is
the head of the cycle's append sequence — before any bot header, fragment or
error text — and no further user message occurs in the cycle. -/
theorem c4_user_message_once_and_first (st : UIState) (outcome : ClientOutcome)
    (h : strip st.user_input_text ≠ "") :
    cycleAppends st outcome =
      UIAction.addToChat "You" (strip st.user_input_text) :: get_bot_response outcome ∧
    (cycleAppends st outcome).countP isUserMsg = 1 ∧
    (cycleAppends st outcome).head? =
      some (UIAction.addToChat "You" (strip st.user_input_text)) := by
  have h1 : cycleAppends st outcome =
      UIAction.addToChat "You" (strip st.user_input_text) :: get_bot_response outcome := by
    simp [cycleAppends, send_message_event, h]
  refine ⟨h1, ?_, by rw [h1]; rfl⟩
  rw [h1, List.countP_cons]
  simp [get_bot_response_countP_isUserMsg, isUserMsg]

/-- Witness for C4 at the concrete state `stW` (entry text `" hi "`). -/
theorem c4_user_message_once_and_first_witness :
    cycleAppends stW (ClientOutcome.success [some "Hel", some "lo"]) =
      UIAction.addToChat "You" "hi" ::
        get_bot_response (ClientOutcome.success [some "Hel", some "lo"]) ∧
    (cycleAppends stW (ClientOutcome.success [some "Hel", some "lo"])).countP isUserMsg = 1 := by
  have h := c4_user_message_once_and_first stW
    (ClientOutcome.success [some "Hel", some "lo"]) (by decide)
  exact ⟨h.1, h.2.1⟩

/-- Claim C5: a prompt that trims to the empty string is rejected with no
state change whatsoever — the handler returns the state untouched (log,
entry text, enabled flags all unchanged), starts no worker, and the cycle
appends nothing to the log. -/
theorem c5_empty_prompt_no_state_change (st : UIState) (outcome : ClientOutcome)
    (h : strip st.user_input_text = "") :
    send_message_event st = ⟨st, none⟩ ∧ cycleAppends st outcome = [] := by
  have h1 : send_message_event st = ⟨st, none⟩ := by
    simp [send_message_event, h]
  exact ⟨h1, by simp [cycleAppends, h1]⟩

/-- Witness for C5 at the concrete state `stE` (entry text `"   "`). -/
theorem c5_empty_prompt_no_state_change_witness :
    send_message_event stE = ⟨stE, none⟩ ∧
    cycleAppends stE (ClientOutcome.setupFailure "timeout") = [] :=
  c5_empty_prompt_no_state_change stE (ClientOutcome.setupFailure "timeout") (by decide)

/-- Claim C10: every operation that mutates the chat display — appending a
full message (user, bot header or error, i.e. `add_to_chat` for any sender)
or appending a streamed fragment (`update_chat_stream`) — leaves the display
widget back in the disabled (read-only) state when it returns. -/
theorem c10_display_readonly_after_mutation (st : UIState) (sender message t : String) :
    (add_to_chat st sender message).chat_display.editable = false ∧
    (update_chat_stream st t).chat_display.editable = false := by
  constructor
  · by_cases h : sender = ""
    · simp [add_to_chat, add_to_chat_cmds, applyCmds, applyCmd, h]
    · simp [add_to_chat_eq st sender message h]
  · simp [update_chat_stream_eq]

/-- Claim C6: at most one request cycle is in flight at a time.  After an
accepted submission both the entry and the send button are disabled, and
they stay disabled after executing any proper prefix of the worker's
scheduled callbacks (every callback before the final re-enable).  A second
submission attempted at any such point is a no-op — in particular its user
message never reaches the log before the first cycle's re-enable step. -/
theorem c6_no_interleaving_before_reenable (st : UIState) (outcome : ClientOutcome)
    (k : Nat) (h : strip st.user_input_text ≠ "")
    (hk : k < (get_bot_response outcome).length) :
    (send_message_event st).state.user_input_enabled = false ∧
    (send_message_event st).state.send_button_enabled = false ∧
    try_submit (runActions (send_message_event st).state ((get_bot_response outcome).take k))
      = ⟨runActions (send_message_event st).state ((get_bot_response outcome).take k),
         none⟩ := by
  have hu : (send_message_event st).state.user_input_enabled = false := by
    simp [send_message_event, h]
  have hb : (send_message_event st).state.send_button_enabled = false := by
    simp [send_message_event, h]
  refine ⟨hu, hb, ?_⟩
  have hlen : k ≤ (pre_enable_actions outcome).length := by
    have := hk
    rw [get_bot_response_decomp] at this
    simpa [Nat.lt_succ_iff] using this
  have htake : (get_bot_response outcome).take k = (pre_enable_actions outcome).take k := by
    rw [get_bot_response_decomp, List.take_append_eq_append_take]
    simp [Nat.sub_eq_zero_of_le hlen]
  have hmem : ∀ a ∈ (get_bot_response outcome).take k, a ≠ UIAction.enableInput := by
    intro a ha
    rw [htake] at ha
    exact pre_enable_ne_enableInput outcome a (List.take_subset k _ ha)
  have hpres := runActions_preserves_disabled _ hmem (send_message_event st).state hu hb
  simp [try_submit, hpres.1, hpres.2]

/-- Witness for C6 at the concrete state `stW`, outcome a one-fragment
stream, after executing the first scheduled callback (`k = 1`). -/
theorem c6_no_interleaving_before_reenable_witness :
    (send_message_event stW).state.user_input_enabled = false ∧
    (send_message_event stW).state.send_button_enabled = false ∧
    try_submit (runActions (send_message_event stW).state
        ((get_bot_response (ClientOutcome.success [some "a"])).take 1))
      = ⟨runActions (send_message_event stW).state
          ((get_bot_response (ClientOutcome.success [some "a"])).take 1), none⟩ :=
  c6_no_interleaving_before_reenable stW (ClientOutcome.success [some "a"]) 1
    (by decide) (by decide)

/-- Claim C8: a chunk without a `text` attribute anywhere in the stream is
dropped silently — the worker's scheduled callbacks and the accumulated
response are exactly those of the stream with that chunk removed — while
every chunk exposing a text payload is relayed as an `update_chat_stream`
append at its position in the stream order. -/
theorem c8_nontext_chunks_dropped (l1 l2 : List Chunk) (t : String) :
    get_bot_response (ClientOutcome.success (l1 ++ none :: l2)) =
      get_bot_response (ClientOutcome.success (l1 ++ l2)) ∧
    full_response (l1 ++ none :: l2) = full_response (l1 ++ l2) ∧
    streamActions (l1 ++ some t :: l2) =
      streamActions l1 ++ UIAction.updateStream t :: streamActions l2 := by
  refine ⟨?_, ?_, ?_⟩
  · simp [get_bot_response, streamActions, List.filterMap_append]
  · simp [full_response, List.foldl_append]
  · simp [streamActions, List.filterMap_append]

/-- Claim C9: on an accepted submission the entry field is cleared before the
worker starts (the handler's resulting state has empty entry text and the
worker received the stripped prompt); on a rejected submission the handler
returns the state — including the entry's contents — unchanged. -/
theorem c9_entry_cleared_only_on_accept (st : UIState) :
    (strip st.user_input_text ≠ "" →
      (send_message_event st).state.user_input_text = "" ∧
      (send_message_event st).worker = some (strip st.user_input_text)) ∧
    (strip st.user_input_text = "" → send_message_event st = ⟨st, none⟩) := by
  constructor
  · intro h
    constructor <;> simp [send_message_event, h]
  · intro h
    simp [send_message_event, h]

/-- Witness for C9 at the concrete states `stW` (accepted) and `stE` (rejected). -/
theorem c9_entry_cleared_only_on_accept_witness :
    (send_message_event stW).state.user_input_text = "" ∧
    (send_message_event stW).worker = some "hi" ∧
    send_message_event stE = ⟨stE, none⟩ := by
  refine ⟨((c9_entry_cleared_only_on_accept stW).1 (by decide)).1, ?_,
    (c9_entry_cleared_only_on_accept stE).2 (by decide)⟩
  exact ((c9_entry_cleared_only_on_accept stW).1 (by decide)).2
